import Mathlib

/-!
Shallow embedding of the resource-accessibility validator
(.github/code/tests/test_resource_accessibility.py) of the
prajitdas.github.io repository.

Strings are modelled as Lean `String` (a wrapper around `List Char`);
Python string primitives (startswith, endswith, `in`, split, lower)
are modelled by the Bool-valued helpers below, operating on `.data`.
The filesystem is modelled as an explicit `FS` value (files with
contents, plus directories); the HTTP session is modelled as an
explicit `Net` oracle mapping a URL to the outcome of a HEAD or GET
request.  Side effects that the claims talk about (number of HTTP
requests issued, whether a failure was written to the local failure
log) are recorded as fields of the probe result.
-/

/-- Bool-valued list prefix test (Python str.startswith on char lists). -/
def listPrefixOf : List Char → List Char → Bool
  | [], _ => true
  | _ :: _, [] => false
  | a :: as, b :: bs => a == b && listPrefixOf as bs

/-- Bool-valued list suffix test (Python str.endswith on char lists):
s is a suffix of l iff s equals l or s is a suffix of l's tail. -/
def listSuffixOfB (s : List Char) : List Char → Bool
  | [] => s == ([] : List Char)
  | b :: bs => s == b :: bs || listSuffixOfB s bs

/-- Bool-valued list infix test (Python `in` substring test on char lists). -/
def listInfixOfB (t : List Char) : List Char → Bool
  | [] => listPrefixOf t []
  | b :: bs => listPrefixOf t (b :: bs) || listInfixOfB t bs

/-- Python s.startswith(pre). -/
def startsWithStr (pre s : String) : Bool := listPrefixOf pre.data s.data

/-- Python s.endswith(suf). -/
def endsWithStr (suf s : String) : Bool := listSuffixOfB suf.data s.data

/-- Python `t in s` (substring containment). -/
def containsStr (t s : String) : Bool := listInfixOfB t.data s.data

/-- Python `c in s` for a single character. -/
def hasChar (c : Char) (s : String) : Bool := s.data.any (fun a => a == c)

/-- Python s.split(c)[0]: everything before the first occurrence of c
(s itself when c does not occur). -/
def beforeChar (c : Char) (s : String) : String :=
  ⟨s.data.takeWhile (fun a => !(a == c))⟩

/-- Python s.split(c, 1)[1]: everything after the first occurrence of c
(empty when c does not occur). -/
def afterChar (c : Char) (s : String) : String :=
  ⟨(s.data.dropWhile (fun a => !(a == c))).drop 1⟩

/-- Python s.lower() (ASCII case folding, as used on URL paths here). -/
def lowerStr (s : String) : String := ⟨s.data.map Char.toLower⟩

/-- Python url.startswith(('http://', 'https://')). -/
def isHttpUrl (url : String) : Bool :=
  startsWithStr "http://" url || startsWithStr "https://" url

/-- pathlib `root / rel`: an empty component is dropped, an absolute
component replaces the accumulated path, otherwise the component is
appended with a separator.  (`.resolve()` normalisation of `.`/`..`
segments is not modelled; theorem inputs use already-normal paths.) -/
def joinPath (root rel : String) : String :=
  if rel = "" then root
  else if startsWithStr "/" rel then rel
  else root ++ "/" ++ rel

/-- The seven type tags returned by classify_resource.  In the spec's
vocabulary: PDF = document, IMAGES = image, CSS = stylesheet,
JS = script, HTML = markup, TEXT = text, OTHER = other. -/
inductive ResourceType
  | PDF
  | IMAGES
  | CSS
  | JS
  | HTML
  | TEXT
  | OTHER
deriving DecidableEq

/-- clean_path of test_local_file_exists and core_part of
_resolve_local_with_context, and the query/fragment stripping step of
urlparse: the reference with the fragment (first '#') and then the
query (first '?') split off. -/
def cleanPathOf (url : String) : String := beforeChar '?' (beforeChar '#' url)

/-- Scheme and netloc removal of urlparse: for http(s) URLs the scheme
and the host part (up to the next '/') are dropped.  (Other schemes
and ';'-params of urlparse are not modelled; no claim exercises
them.) -/
def stripSchemeNetloc (s : String) : String :=
  if startsWithStr "http://" s then ⟨(s.data.drop 7).dropWhile (fun a => !(a == '/'))⟩
  else if startsWithStr "https://" s then ⟨(s.data.drop 8).dropWhile (fun a => !(a == '/'))⟩
  else s

/-- Path component of urlparse(url): the fragment (after the first '#')
and the query (after the first '?') are split off, then scheme and
netloc are removed. -/
def urlPath (url : String) : String := stripSchemeNetloc (cleanPathOf url)

/-- The if/elif extension dispatch of classify_resource, applied to the
already lower-cased urlparse path. -/
def classifyPath (path : String) : ResourceType :=
  if endsWithStr ".pdf" path then ResourceType.PDF
  else if endsWithStr ".png" path || endsWithStr ".jpg" path || endsWithStr ".jpeg" path
      || endsWithStr ".gif" path || endsWithStr ".svg" path || endsWithStr ".ico" path then
    ResourceType.IMAGES
  else if endsWithStr ".css" path then ResourceType.CSS
  else if endsWithStr ".js" path then ResourceType.JS
  else if endsWithStr ".html" path || endsWithStr ".htm" path then ResourceType.HTML
  else if endsWithStr ".txt" path || endsWithStr ".xml" path || endsWithStr ".json" path then
    ResourceType.TEXT
  else ResourceType.OTHER

/-- WebsiteResourceTester.classify_resource:
path = urlparse(resource_url).path.lower(), then extension dispatch. -/
def classify_resource (resource_url : String) : ResourceType :=
  classifyPath (lowerStr (urlPath resource_url))

/-- Filesystem model: regular files with their text contents, and
directories.  Paths are plain strings as produced by joinPath. -/
structure FS where
  files : List (String × String)
  dirs : List String

/-- pathlib Path.exists(): true for files and for directories. -/
def FS.existsPath (fs : FS) (p : String) : Bool :=
  fs.dirs.any (fun d => d == p) || fs.files.any (fun e => e.fst == p)

/-- open(p).read(): contents when p is a regular file; none when p is
missing or is a directory (Python raises, the caller catches). -/
def FS.readFile (fs : FS) (p : String) : Option String :=
  (fs.files.find? (fun e => e.fst == p)).map Prod.snd

/-- fragment of test_local_file_exists: resource_url.split('#', 1)[1]. -/
def fragmentOf (url : String) : String := afterChar '#' url

/-- The regex check of the anchor validation: re.search on the literal
pattern name="fragment"|id="fragment" is substring containment. -/
def anchorFound (content fragment : String) : Bool :=
  containsStr ("name=\"" ++ fragment ++ "\"") content
    || containsStr ("id=\"" ++ fragment ++ "\"") content

/-- WebsiteResourceTester.test_local_file_exists(resource_url):
external http(s) URLs have no local file; otherwise the stripped path
is joined under the site root and must exist; when a nonempty fragment
is present and the stripped path ends in '.html', the target is opened
and the anchor pattern must be found (an unreadable target counts as
failure). -/
def test_local_file_exists (fs : FS) (root resource_url : String) : Bool :=
  if isHttpUrl resource_url then false
  else
    let fragment := fragmentOf resource_url
    let clean_path := cleanPathOf resource_url
    let full_path := joinPath root clean_path
    if !(fs.existsPath full_path) then false
    else if hasChar '#' resource_url && fragment != "" && endsWithStr ".html" clean_path then
      match fs.readFile full_path with
      | some content => anchorFound content fragment
      | none => false
    else true

/-- Outcome oracle for the HTTP session: what a HEAD or GET request to
a given URL would produce (a status code after redirects, or a raised
requests exception carrying a message). -/
structure Net where
  head : String → Except String Nat
  get : String → Except String Nat

/-- Observable outcome of test_web_accessibility.  status_code,
accessible and skipped are the fields of the returned dict; requests
counts the HTTP requests actually issued, and logged records whether
log_url_failure was called — instrumentation for the frame claims. -/
structure ProbeResult where
  status_code : Option Nat
  accessible : Bool
  skipped : Bool
  requests : Nat
  logged : Bool
deriving DecidableEq

/-- SKIP_DOMAINS of test_web_accessibility. -/
def SKIP_DOMAINS : List String :=
  ["doi.org", "dx.doi.org", "arxiv.org", "ieee.org", "ieeexplore.ieee.org",
   "dl.acm.org", "acm.org", "search.proquest.com", "ceur-ws.org",
   "igi-global.com", "ebiquity.umbc.edu"]

/-- The module-level LOCAL_LOGGING_ENABLED flag: true only in non-CI
runs in which the local_test_logger import succeeded (importOk). -/
def LOCAL_LOGGING_ENABLED (isCI importOk : Bool) : Bool := !isCI && importOk

/-- Python `status in l` for the acceptable-status collections. -/
def statusIn (status : Nat) (l : List Nat) : Bool := l.any (fun s => s == status)

/-- acceptable_statuses = {200, 301, 302, 303, 307, 308}. -/
def BASE_ACCEPTABLE : List Nat := [200, 301, 302, 303, 307, 308]

/-- The statuses added by acceptable_statuses.update({403, 418, 429}). -/
def CI_EXTRA : List Nat := [403, 418, 429]

/-- The acceptable-status collection after the conditional update. -/
def acceptableStatuses (isCI : Bool) : List Nat :=
  if isCI then BASE_ACCEPTABLE ++ CI_EXTRA else BASE_ACCEPTABLE

/-- urlparse(test_url).netloc.lower(): for http(s) URLs, the host part
between the scheme and the next '/', '?' or '#', lower-cased. -/
def domainOf (url : String) : String :=
  if startsWithStr "http://" url then
    lowerStr ⟨(url.data.drop 7).takeWhile (fun a => !(a == '/') && !(a == '?') && !(a == '#'))⟩
  else if startsWithStr "https://" url then
    lowerStr ⟨(url.data.drop 8).takeWhile (fun a => !(a == '/') && !(a == '?') && !(a == '#'))⟩
  else ""

/-- test_url construction of test_web_accessibility: absolute URLs pass
through, root-relative references are appended to the base URL, other
references are joined with a '/'. -/
def buildTestUrl (base_url url : String) : String :=
  if !(isHttpUrl url) then
    if startsWithStr "/" url then base_url ++ url else base_url ++ "/" ++ url
  else url

/-- The tail of test_web_accessibility once a response with a status
code has been obtained (reqs = HTTP requests issued so far):
acceptance by status set, the doi.org 418 special case, and the
conditional local logging of unaccepted statuses. -/
def probeRespond (isCI importOk : Bool) (domain : String) (status reqs : Nat) : ProbeResult :=
  let acceptable := statusIn status (acceptableStatuses isCI)
  let is_doi_link := containsStr "doi.org" domain || containsStr "dx.doi.org" domain
  let accessible := acceptable || (is_doi_link && status == 418)
  { status_code := some status
    accessible := accessible
    skipped := false
    requests := reqs
    logged := !accessible && LOCAL_LOGGING_ENABLED isCI importOk && !isCI }

/-- WebsiteResourceTester.test_web_accessibility(url): build the test
URL; in CI skip domains matching the skip list by substring without a
request; otherwise HEAD (retrying once with GET on a request
exception); classify the status via probeRespond; a second exception
yields accessible = IS_CI with conditional local logging. -/
def test_web_accessibility (isCI importOk : Bool) (net : Net) (base_url url : String) :
    ProbeResult :=
  let test_url := buildTestUrl base_url url
  let domain := domainOf test_url
  if isCI && SKIP_DOMAINS.any (fun d => containsStr d domain) then
    { status_code := none, accessible := true, skipped := true, requests := 0, logged := false }
  else
    match net.head test_url with
    | Except.ok status => probeRespond isCI importOk domain status 1
    | Except.error _ =>
      match net.get test_url with
      | Except.ok status => probeRespond isCI importOk domain status 2
      | Except.error _ =>
        { status_code := none, accessible := isCI, skipped := false, requests := 2,
          logged := LOCAL_LOGGING_ENABLED isCI importOk && !isCI }

/-- The two-valued combined verdict of a tested reference. -/
inductive Verdict
  | PASS
  | FAIL
deriving DecidableEq

/-- The per-reference result dict assembled by test_resource. -/
structure TestResult where
  resource : String
  local_exists : Bool
  web_accessible : Bool
  web_status : Option Nat
  status : Verdict
  type : ResourceType
deriving DecidableEq

/-- WebsiteResourceTester.test_resource(resource_url): combine the
local check and the web probe; PASS iff local_exists or accessible. -/
def test_resource (fs : FS) (root : String) (isCI importOk : Bool) (net : Net)
    (base_url url : String) : TestResult :=
  let local_exists := test_local_file_exists fs root url
  let web := test_web_accessibility isCI importOk net base_url url
  { resource := url
    local_exists := local_exists
    web_accessible := web.accessible
    web_status := web.status_code
    status := if local_exists || web.accessible then Verdict.PASS else Verdict.FAIL
    type := classify_resource url }

/-- Final path component of a path string (for rglob name matching). -/
def basenameOf (p : String) : String :=
  ⟨(p.data.reverse.takeWhile (fun a => !(a == '/'))).reverse⟩

/-- local_path.rglob(name) for a plain file name: every file or
directory strictly below the site root whose final component equals
the name.  (Glob metacharacters are not modelled; references do not
contain them.) -/
def FS.rglobName (fs : FS) (root name : String) : List String :=
  (fs.dirs ++ fs.files.map Prod.fst).filter
    (fun p => startsWithStr (root ++ "/") p && basenameOf p == name)

/-- WebsiteResourceTester._resolve_local_with_context(resource_url,
referer_dir): external URLs never resolve; otherwise the stripped path
is resolved against the referring document's directory; if that misses
and the stripped path has no '/', a recursive search under the site
root resolves iff it finds exactly one match. -/
def resolve_local_with_context (fs : FS) (root url referer_dir : String) :
    Bool × Option String :=
  if isHttpUrl url then (false, none)
  else
    let core_part := cleanPathOf url
    let candidate := joinPath (joinPath root referer_dir) core_part
    if fs.existsPath candidate then (true, some candidate)
    else if !(hasChar '/' core_part) then
      let found := fs.rglobName root core_part
      if found.length == 1 then (true, found.head?) else (false, none)
    else (false, none)

/-- The critical resource types of main: ['PDF', 'HTML', 'CSS', 'JS']
(document, markup, stylesheet, script). -/
def isCriticalType (t : ResourceType) : Bool :=
  t == ResourceType.PDF || t == ResourceType.HTML
    || t == ResourceType.CSS || t == ResourceType.JS

/-- The condition under which main's loop counts a result as a
critical failure: critical type, not the CI carve-out (external
reference that is missing locally), and verdict FAIL. -/
def countsAsCriticalFailure (isCI : Bool) (r : TestResult) : Bool :=
  isCriticalType r.type
    && !(isCI && !r.local_exists && isHttpUrl r.resource)
    && r.status == Verdict.FAIL

/-- The exit code computed by main(): the loop over the grouped
results counts critical failures (skipping, in CI, external references
that are missing locally), then exits 0 when IS_CI and the count is
zero, and otherwise 1 if the count is positive, else 0.  The grouping
of results by type in run_comprehensive_test does not affect the
count, so the results are taken as a flat list. -/
def mainExitCode (isCI : Bool) (results : List TestResult) : Nat :=
  let critical_failures := results.foldl
    (fun acc r =>
      if isCriticalType r.type then
        if isCI && !r.local_exists && isHttpUrl r.resource then acc
        else if r.status == Verdict.FAIL then acc + 1 else acc
      else acc) 0
  if isCI && critical_failures == 0 then 0
  else if critical_failures > 0 then 1 else 0

/-! Helper lemmas about the string primitives. -/

/-- Every list is a Bool-prefix of itself. -/
theorem listPrefixOf_self (l : List Char) : listPrefixOf l l = true := by
  induction l with
  | nil => rfl
  | cons a t ih => simp [listPrefixOf, ih]

/-- Every list is a Bool-suffix of itself. -/
theorem listSuffixOfB_refl (l : List Char) : listSuffixOfB l l = true := by
  cases l <;> simp [listSuffixOfB]

/-- Every string contains itself as a substring. -/
theorem containsStr_self (s : String) : containsStr s s = true := by
  unfold containsStr
  cases h : s.data with
  | nil => simp [listInfixOfB, listPrefixOf]
  | cons a t => simp [listInfixOfB, listPrefixOf_self]

/-- Two Bool-suffixes of the same list are comparable. -/
theorem listSuffixOfB_total (s t p : List Char) (h1 : listSuffixOfB s p = true)
    (h2 : listSuffixOfB t p = true) :
    listSuffixOfB s t = true ∨ listSuffixOfB t s = true := by
  induction p with
  | nil =>
    unfold listSuffixOfB at h1 h2
    have hs : s = [] := by simpa using h1
    have ht : t = [] := by simpa using h2
    subst hs; subst ht
    left; rfl
  | cons b bs ih =>
    unfold listSuffixOfB at h1 h2
    rcases Bool.or_eq_true_iff.mp h1 with hs | hs
    · have hs' : s = b :: bs := by simpa using hs
      rcases Bool.or_eq_true_iff.mp h2 with ht | ht
      · have ht' : t = b :: bs := by simpa using ht
        subst hs'; subst ht'
        left; exact listSuffixOfB_refl _
      · right
        subst hs'
        unfold listSuffixOfB
        simp [ht]
    · rcases Bool.or_eq_true_iff.mp h2 with ht | ht
      · have ht' : t = b :: bs := by simpa using ht
        left
        subst ht'
        unfold listSuffixOfB
        simp [hs]
      · exact ih hs ht

/-- A string cannot end in two incomparable suffixes. -/
theorem ne_ends (s t p : String) (h : endsWithStr s p = true)
    (h1 : listSuffixOfB s.data t.data = false) (h2 : listSuffixOfB t.data s.data = false) :
    endsWithStr t p = false := by
  unfold endsWithStr at h ⊢
  by_contra hc
  have ht : listSuffixOfB t.data p.data = true := by
    cases hx : listSuffixOfB t.data p.data
    · exact absurd hx hc
    · rfl
  rcases listSuffixOfB_total s.data t.data p.data h ht with hr | hr
  · simp [hr] at h1
  · simp [hr] at h2

/-- Negated-membership transfer from a failed Bool `any`. -/
theorem all_beq_false_of_any_false (c : Char) (l : List Char)
    (h : l.any (fun a => a == c) = false) : ∀ a ∈ l, (a == c) = false := by
  induction l with
  | nil => intro a ha; cases ha
  | cons b t ih =>
    simp only [List.any_cons, Bool.or_eq_false_iff] at h
    intro a ha
    rcases List.mem_cons.mp ha with rfl | ha'
    · exact h.1
    · exact ih h.2 a ha'

/-- takeWhile up to a separator character stops exactly at the
separator when the prefix is free of it. -/
theorem takeWhileNe_append_sep (c : Char) (l₁ l₂ : List Char)
    (h : ∀ a ∈ l₁, (a == c) = false) :
    (l₁ ++ c :: l₂).takeWhile (fun a => !(a == c)) = l₁ := by
  induction l₁ with
  | nil => simp [List.takeWhile_cons]
  | cons a t ih =>
    have ha : (a == c) = false := h a (by simp)
    rw [List.cons_append, List.takeWhile_cons, ha]
    simp only [Bool.not_false, if_pos rfl]
    rw [ih (fun b hb => h b (by simp [hb]))]
    simp

/-- takeWhile keeps a list free of the separator intact. -/
theorem takeWhileNe_eq_self (c : Char) (l : List Char)
    (h : ∀ a ∈ l, (a == c) = false) :
    l.takeWhile (fun a => !(a == c)) = l := by
  induction l with
  | nil => rfl
  | cons a t ih =>
    have ha : (a == c) = false := h a (by simp)
    rw [List.takeWhile_cons, ha]
    simp only [Bool.not_false, if_pos rfl]
    rw [ih (fun b hb => h b (by simp [hb]))]
    simp

/-- beforeChar is the identity on strings free of the character. -/
theorem beforeChar_eq_self (c : Char) (s : String) (h : hasChar c s = false) :
    beforeChar c s = s := by
  unfold beforeChar
  have := takeWhileNe_eq_self c s.data (all_beq_false_of_any_false c s.data h)
  simp [this]

/-- The per-element step of main's critical-failure loop equals a
count of countsAsCriticalFailure. -/
theorem critical_step_eq (isCI : Bool) (acc : Nat) (r : TestResult) :
    (if isCriticalType r.type then
      if isCI && !r.local_exists && isHttpUrl r.resource then acc
      else if r.status == Verdict.FAIL then acc + 1 else acc
    else acc) = if countsAsCriticalFailure isCI r then acc + 1 else acc := by
  unfold countsAsCriticalFailure
  cases h1 : isCriticalType r.type <;>
    cases h2 : (isCI && !r.local_exists && isHttpUrl r.resource) <;>
      cases h3 : (r.status == Verdict.FAIL) <;> simp [h1, h2, h3]

/-- main's critical-failure fold computes the filtered count. -/
theorem critical_fold_eq (isCI : Bool) (l : List TestResult) (acc : Nat) :
    l.foldl (fun acc r =>
      if isCriticalType r.type then
        if isCI && !r.local_exists && isHttpUrl r.resource then acc
        else if r.status == Verdict.FAIL then acc + 1 else acc
      else acc) acc = acc + (l.filter (countsAsCriticalFailure isCI)).length := by
  induction l generalizing acc with
  | nil => simp
  | cons r t ih =>
    simp only [List.foldl_cons]
    rw [critical_step_eq, List.filter_cons]
    cases h : countsAsCriticalFailure isCI r
    · simp only [h, Bool.false_eq_true, if_false]
      exact ih acc
    · simp only [h, if_true]
      rw [ih (acc + 1)]
      simp only [List.length_cons]
      omega

/-! C1: exit-code tiering. -/

/-- A run whose only tested reference is a failing stylesheet. -/
def cssFailSample : TestResult :=
  { resource := "assets/css/style.css", local_exists := false, web_accessible := false,
    web_status := some 404, status := Verdict.FAIL, type := ResourceType.CSS }

/-- A run whose only tested reference is a failing resource of type
OTHER. -/
def otherFailSample : TestResult :=
  { resource := "assets/data/blob.bin", local_exists := false, web_accessible := false,
    web_status := some 404, status := Verdict.FAIL, type := ResourceType.OTHER }

/-- C1 counterexample: the exit status is not tiered into three
values.  A run with a single failing stylesheet exits 1 (the claim
says 2), both in CI and outside CI, and a run whose only failure is an
OTHER-typed resource exits 0 (the claim says 1). -/
theorem C1_exit_counterexample :
    mainExitCode false [cssFailSample] = 1
    ∧ mainExitCode true [cssFailSample] = 1
    ∧ mainExitCode false [otherFailSample] = 0
    ∧ mainExitCode true [otherFailSample] = 0 := by
  refine ⟨rfl, rfl, rfl, rfl⟩

/-- C1 (amended): the process exit status is two-valued, never 2: it
is 1 exactly when at least one result of a critical resource type
(PDF/HTML/CSS/JS, i.e. document/markup/stylesheet/script) counts as a
critical failure (its Verdict is FAIL, and it is not exempted as an
external non-locally-resolved reference in CI), and 0 in every other
case — in particular when only non-critical resource types (such as
OTHER) fail. -/
theorem C1_exit_code_binary (isCI : Bool) (results : List TestResult) :
    mainExitCode isCI results ≠ 2
    ∧ (mainExitCode isCI results = 1 ↔
        0 < (results.filter (countsAsCriticalFailure isCI)).length)
    ∧ (mainExitCode isCI results = 0 ↔
        (results.filter (countsAsCriticalFailure isCI)).length = 0) := by
  unfold mainExitCode
  rw [critical_fold_eq]
  rcases Nat.eq_zero_or_pos (results.filter (countsAsCriticalFailure isCI)).length with h | h
  · rw [h]
    cases isCI <;> simp
  · have h0 : (((results.filter (countsAsCriticalFailure isCI)).length) == 0) = false := by
      simp only [beq_eq_false_iff_ne, ne_eq]
      omega
    simp only [Nat.zero_add, h0, Bool.and_false, Bool.false_eq_true, if_false, if_pos h]
    refine ⟨by omega, ⟨fun _ => h, fun _ => trivial⟩, ⟨fun hc => by omega, fun hc => by omega⟩⟩

/-! C2: the combined Verdict. -/

/-- Spec-side notion for C2: the reference resolves locally with
local_exists true — it is not an external http(s) URL and its stripped
path exists under the site root. -/
def specLocalResolves (fs : FS) (root url : String) : Bool :=
  !(isHttpUrl url) && fs.existsPath (joinPath root (cleanPathOf url))

/-- Spec-side notion for C2: the anchor check applies (nonempty
fragment, '.html' target) and fails — the target is unreadable or does
not contain the anchor pattern. -/
def specAnchorCheckFails (fs : FS) (root url : String) : Bool :=
  (hasChar '#' url && fragmentOf url != "" && endsWithStr ".html" (cleanPathOf url))
    && !((fs.readFile (joinPath root (cleanPathOf url))).any
          (fun content => anchorFound content (fragmentOf url)))

/-- The bundled local check decomposes into the two spec-side
notions. -/
theorem test_local_eq_spec (fs : FS) (root url : String) :
    test_local_file_exists fs root url =
      (specLocalResolves fs root url && !(specAnchorCheckFails fs root url)) := by
  unfold test_local_file_exists specLocalResolves specAnchorCheckFails
  cases h1 : isHttpUrl url
  · cases h2 : fs.existsPath (joinPath root (cleanPathOf url))
    · simp [h2]
    · cases h3 : (hasChar '#' url && fragmentOf url != "" && endsWithStr ".html" (cleanPathOf url))
      · simp [h2, h3]
      · cases h4 : fs.readFile (joinPath root (cleanPathOf url))
        · simp [h2, h3, h4]
        · simp [h2, h3, h4, Option.any]
  · simp

/-- C2: the combined Verdict of test_resource is PASS exactly when the
reference resolves locally (local_exists) and the anchor check did not
fail, or the remote probe reports it accessible; otherwise FAIL. -/
theorem C2_verdict_iff (fs : FS) (root : String) (isCI importOk : Bool) (net : Net)
    (base_url url : String) :
    (test_resource fs root isCI importOk net base_url url).status = Verdict.PASS ↔
      ((specLocalResolves fs root url = true ∧ specAnchorCheckFails fs root url = false)
        ∨ (test_web_accessibility isCI importOk net base_url url).accessible = true) := by
  unfold test_resource
  simp only [test_local_eq_spec]
  cases ha : specLocalResolves fs root url <;>
    cases hb : specAnchorCheckFails fs root url <;>
      cases hc : (test_web_accessibility isCI importOk net base_url url).accessible <;>
        simp [ha, hb, hc]

/-! C3: anchor validation of fragment references. -/

/-- A site whose page.htm (a markup file per classify_resource) exists
but contains no anchor at all. -/
def fsHtmPage : FS :=
  { files := [("site/page.htm", "<p>no anchors here</p>")], dirs := ["site"] }

/-- A site whose page.html contains the anchor sec1 but not sec2. -/
def fsHtmlPage : FS :=
  { files := [("site/page.html", "<a id=\"sec1\">start</a>")], dirs := ["site"] }

/-- C3 counterexample: for the markup target page.htm (classified
HTML, i.e. markup) carrying fragment sec2, local resolution does NOT
open the target: it reports the reference as locally existing even
though the file contains no such anchor, because the anchor check in
the code fires only for paths ending in '.html', not '.htm'. -/
theorem C3_htm_anchor_counterexample :
    test_local_file_exists fsHtmPage "site" "page.htm#sec2" = true
    ∧ classify_resource "page.htm" = ResourceType.HTML
    ∧ anchorFound "<p>no anchors here</p>" "sec2" = false := by
  refine ⟨by decide, by decide, by decide⟩

/-- C3 (amended): for every local reference carrying a nonempty
fragment whose stripped path ends in '.html' (rather than: is any
markup file — '.htm' targets are not anchor-checked), local resolution
succeeds exactly when the base file exists, is readable, and its
content contains the anchor pattern name="fragment" or id="fragment";
a missing base file short-circuits the check as failure. -/
theorem C3_anchor_check_html (fs : FS) (root url : String)
    (hfrag : hasChar '#' url = true)
    (hne : (fragmentOf url != "") = true)
    (hext : endsWithStr ".html" (cleanPathOf url) = true)
    (hhttp : isHttpUrl url = false) :
    test_local_file_exists fs root url =
      (fs.existsPath (joinPath root (cleanPathOf url))
        && (fs.readFile (joinPath root (cleanPathOf url))).any
             (fun content => anchorFound content (fragmentOf url))) := by
  unfold test_local_file_exists
  rw [hhttp]
  simp only [Bool.false_eq_true, if_false, hfrag, hne, hext, Bool.and_self, Bool.true_and,
    if_true]
  cases h2 : fs.existsPath (joinPath root (cleanPathOf url))
  · simp
  · cases h4 : fs.readFile (joinPath root (cleanPathOf url))
    · simp [h4]
    · simp [h4, Option.any]

/-- C3 witness: page.html#sec1 against a site containing the anchor;
the hypotheses of C3_anchor_check_html hold and the reference resolves
to the anchor-containment value (true). -/
theorem C3_anchor_check_html_witness :
    (hasChar '#' "page.html#sec1" = true
      ∧ (fragmentOf "page.html#sec1" != "") = true
      ∧ endsWithStr ".html" (cleanPathOf "page.html#sec1") = true
      ∧ isHttpUrl "page.html#sec1" = false)
    ∧ test_local_file_exists fsHtmlPage "site" "page.html#sec1" =
        (fsHtmlPage.existsPath (joinPath "site" (cleanPathOf "page.html#sec1"))
          && (fsHtmlPage.readFile (joinPath "site" (cleanPathOf "page.html#sec1"))).any
               (fun content => anchorFound content (fragmentOf "page.html#sec1"))) :=
  ⟨⟨by decide, by decide, by decide, by decide⟩,
   C3_anchor_check_html fsHtmlPage "site" "page.html#sec1"
     (by decide) (by decide) (by decide) (by decide)⟩

/-! C9: local existence does not require a regular file. -/

/-- A site consisting only of directories (no regular files). -/
def fsDirsOnly : FS := { files := [], dirs := ["site", "site/assets"] }

/-- C9: local resolution reports local_exists=true whenever the
stripped path exists under the site root, with no regular-file
requirement: any entry (in particular a directory) suffices, and the
degenerate reference whose stripped path is empty resolves to the site
root directory itself. -/
theorem C9_exists_without_file_check :
    (∀ (fs : FS) (root url : String),
      isHttpUrl url = false →
      (hasChar '#' url && fragmentOf url != "" && endsWithStr ".html" (cleanPathOf url)) = false →
      fs.existsPath (joinPath root (cleanPathOf url)) = true →
      test_local_file_exists fs root url = true)
    ∧ (∀ (fs : FS) (root url : String),
      isHttpUrl url = false →
      (hasChar '#' url && fragmentOf url != "" && endsWithStr ".html" (cleanPathOf url)) = false →
      (joinPath root (cleanPathOf url)) ∈ fs.dirs →
      test_local_file_exists fs root url = true)
    ∧ (∀ (fs : FS) (root : String),
      root ∈ fs.dirs →
      test_local_file_exists fs root "" = true) := by
  have general : ∀ (fs : FS) (root url : String),
      isHttpUrl url = false →
      (hasChar '#' url && fragmentOf url != "" && endsWithStr ".html" (cleanPathOf url)) = false →
      fs.existsPath (joinPath root (cleanPathOf url)) = true →
      test_local_file_exists fs root url = true := by
    intro fs root url h1 h2 h3
    unfold test_local_file_exists
    rw [h1]
    simp only [Bool.false_eq_true, if_false, h3, h2, Bool.not_true, Bool.false_eq_true]
  have dirExists : ∀ (fs : FS) (p : String), p ∈ fs.dirs → fs.existsPath p = true := by
    intro fs p hp
    unfold FS.existsPath
    have : fs.dirs.any (fun d => d == p) = true :=
      List.any_eq_true.mpr ⟨p, hp, by simp⟩
    simp [this]
  refine ⟨general, ?_, ?_⟩
  · intro fs root url h1 h2 h3
    exact general fs root url h1 h2 (dirExists fs _ h3)
  · intro fs root hroot
    have hclean : cleanPathOf "" = "" := by decide
    have hjoin : joinPath root (cleanPathOf "") = root := by
      rw [hclean]
      unfold joinPath
      simp
    exact general fs root "" (by decide) (by decide)
      (by rw [hjoin]; exact dirExists fs root hroot)

/-- C9 witness: a directory reference (assets) and the empty reference
both resolve against a site containing only directories. -/
theorem C9_exists_without_file_check_witness :
    (isHttpUrl "assets" = false
      ∧ (joinPath "site" (cleanPathOf "assets")) ∈ fsDirsOnly.dirs
      ∧ "site" ∈ fsDirsOnly.dirs)
    ∧ test_local_file_exists fsDirsOnly "site" "assets" = true
    ∧ test_local_file_exists fsDirsOnly "site" "" = true
    ∧ test_local_file_exists fsDirsOnly "site" "?v=2" = true :=
  ⟨⟨by decide, by decide, by decide⟩,
   C9_exists_without_file_check.2.1 fsDirsOnly "site" "assets" (by decide) (by decide) (by decide),
   C9_exists_without_file_check.2.2 fsDirsOnly "site" (by decide),
   C9_exists_without_file_check.1 fsDirsOnly "site" "?v=2" (by decide) (by decide) (by decide)⟩

/-! C8: bare-filename fallback search. -/

/-- A site in which pic.png occurs exactly once, outside the referring
directory. -/
def fsUniquePic : FS := { files := [("site/a/pic.png", "img")], dirs := ["site", "site/a"] }

/-- C8: for a relative reference whose stripped path has no path
separator and whose referrer-relative candidate is missing (the
function is only called after root-relative resolution failed), the
recursive search under the site root resolves the reference exactly
when it finds exactly one entry with that name; zero or several
matches leave it unresolved. -/
theorem C8_unique_filename_fallback (fs : FS) (root url referer_dir : String)
    (hhttp : isHttpUrl url = false)
    (hnosep : hasChar '/' (cleanPathOf url) = false)
    (hmiss : fs.existsPath (joinPath (joinPath root referer_dir) (cleanPathOf url)) = false) :
    ((resolve_local_with_context fs root url referer_dir).fst = true ↔
      (fs.rglobName root (cleanPathOf url)).length = 1) := by
  unfold resolve_local_with_context
  rw [hhttp]
  simp only [Bool.false_eq_true, if_false, hmiss, hnosep, Bool.not_false, if_true]
  cases h : ((fs.rglobName root (cleanPathOf url)).length == 1)
  · simp only [Bool.false_eq_true, if_false]
    constructor
    · intro hc
      exact absurd hc (by simp)
    · intro hc
      exact absurd h (by simp [hc])
  · simp only [if_true]
    constructor
    · intro _
      simpa using h
    · intro _
      trivial

/-- C8 witness: the bare filename pic.png, absent from the referring
directory sub, matches exactly one entry under the site root and
therefore resolves. -/
theorem C8_unique_filename_fallback_witness :
    (isHttpUrl "pic.png" = false
      ∧ hasChar '/' (cleanPathOf "pic.png") = false
      ∧ fsUniquePic.existsPath
          (joinPath (joinPath "site" "sub") (cleanPathOf "pic.png")) = false)
    ∧ ((resolve_local_with_context fsUniquePic "site" "pic.png" "sub").fst = true ↔
        (fsUniquePic.rglobName "site" (cleanPathOf "pic.png")).length = 1) :=
  ⟨⟨by decide, by decide, by decide⟩,
   C8_unique_filename_fallback fsUniquePic "site" "pic.png" "sub"
     (by decide) (by decide) (by decide)⟩

/-! Branch lemmas for test_web_accessibility. -/

/-- Absolute URLs pass through test_url construction unchanged. -/
theorem buildTestUrl_abs (base_url url : String) (h : isHttpUrl url = true) :
    buildTestUrl base_url url = url := by
  unfold buildTestUrl
  rw [h]
  simp

/-- Skip-list branch: when in CI and the lowered netloc matches the
skip list by substring, the probe returns the skip record. -/
theorem probe_skip_eq (isCI importOk : Bool) (net : Net) (base_url url : String)
    (h : (isCI && SKIP_DOMAINS.any
          (fun d => containsStr d (domainOf (buildTestUrl base_url url)))) = true) :
    test_web_accessibility isCI importOk net base_url url =
      { status_code := none, accessible := true, skipped := true,
        requests := 0, logged := false } := by
  unfold test_web_accessibility
  simp only [h, if_true]

/-- HEAD-success branch of the probe. -/
theorem probe_head_eq (isCI importOk : Bool) (net : Net) (base_url url : String)
    (status : Nat)
    (hskip : (isCI && SKIP_DOMAINS.any
          (fun d => containsStr d (domainOf (buildTestUrl base_url url)))) = false)
    (hhead : net.head (buildTestUrl base_url url) = Except.ok status) :
    test_web_accessibility isCI importOk net base_url url =
      probeRespond isCI importOk (domainOf (buildTestUrl base_url url)) status 1 := by
  unfold test_web_accessibility
  simp only [hskip, Bool.false_eq_true, if_false, hhead]

/-- HEAD-exception, GET-success branch of the probe. -/
theorem probe_get_eq (isCI importOk : Bool) (net : Net) (base_url url : String)
    (status : Nat) (e : String)
    (hskip : (isCI && SKIP_DOMAINS.any
          (fun d => containsStr d (domainOf (buildTestUrl base_url url)))) = false)
    (hhead : net.head (buildTestUrl base_url url) = Except.error e)
    (hget : net.get (buildTestUrl base_url url) = Except.ok status) :
    test_web_accessibility isCI importOk net base_url url =
      probeRespond isCI importOk (domainOf (buildTestUrl base_url url)) status 2 := by
  unfold test_web_accessibility
  simp only [hskip, Bool.false_eq_true, if_false, hhead, hget]

/-- Double-exception branch of the probe. -/
theorem probe_exn_eq (isCI importOk : Bool) (net : Net) (base_url url : String)
    (e1 e2 : String)
    (hskip : (isCI && SKIP_DOMAINS.any
          (fun d => containsStr d (domainOf (buildTestUrl base_url url)))) = false)
    (hhead : net.head (buildTestUrl base_url url) = Except.error e1)
    (hget : net.get (buildTestUrl base_url url) = Except.error e2) :
    test_web_accessibility isCI importOk net base_url url =
      { status_code := none, accessible := isCI, skipped := false, requests := 2,
        logged := LOCAL_LOGGING_ENABLED isCI importOk && !isCI } := by
  unfold test_web_accessibility
  simp only [hskip, Bool.false_eq_true, if_false, hhead, hget]

/-! C5, C10: the CI skip-list policy. -/

/-- A network on which every request succeeds with status 200. -/
def netOkSample : Net := { head := fun _ => Except.ok 200, get := fun _ => Except.ok 200 }

/-- In any non-skipped execution path, at least one HTTP request is
issued. -/
theorem probe_requests_pos (isCI importOk : Bool) (net : Net) (base_url url : String)
    (hskip : (isCI && SKIP_DOMAINS.any
        (fun d => containsStr d (domainOf (buildTestUrl base_url url)))) = false) :
    1 ≤ (test_web_accessibility isCI importOk net base_url url).requests := by
  cases hh : net.head (buildTestUrl base_url url) with
  | ok status =>
    rw [probe_head_eq isCI importOk net base_url url status hskip hh]
    unfold probeRespond
    simp
  | error e =>
    cases hg : net.get (buildTestUrl base_url url) with
    | ok status =>
      rw [probe_get_eq isCI importOk net base_url url status e hskip hh hg]
      unfold probeRespond
      simp
    | error e2 =>
      rw [probe_exn_eq isCI importOk net base_url url e e2 hskip hh hg]
      simp

/-- C5: for an absolute URL whose lowered host is one of the
configured skip-list domains, a CI run returns accessible and skipped
without issuing any HTTP request, whereas a non-CI run issues at least
one real request for the same URL. -/
theorem C5_skip_domain_ci (importOk : Bool) (net : Net) (base_url url : String)
    (habs : isHttpUrl url = true)
    (hdom : domainOf url ∈ SKIP_DOMAINS) :
    ((test_web_accessibility true importOk net base_url url).accessible = true
      ∧ (test_web_accessibility true importOk net base_url url).skipped = true
      ∧ (test_web_accessibility true importOk net base_url url).requests = 0)
    ∧ 1 ≤ (test_web_accessibility false importOk net base_url url).requests := by
  have hbuild : buildTestUrl base_url url = url := buildTestUrl_abs base_url url habs
  constructor
  · have hguard : (true && SKIP_DOMAINS.any
        (fun d => containsStr d (domainOf (buildTestUrl base_url url)))) = true := by
      rw [hbuild, Bool.true_and]
      exact List.any_eq_true.mpr ⟨domainOf url, hdom, containsStr_self _⟩
    rw [probe_skip_eq true importOk net base_url url hguard]
    exact ⟨rfl, rfl, rfl⟩
  · exact probe_requests_pos false importOk net base_url url (by simp)

/-- C5 witness: the skip-listed domain doi.org in CI and outside CI. -/
theorem C5_skip_domain_ci_witness :
    (isHttpUrl "https://doi.org/10.1234/x" = true
      ∧ domainOf "https://doi.org/10.1234/x" ∈ SKIP_DOMAINS)
    ∧ (((test_web_accessibility true true netOkSample "https://prajitdas.github.io"
          "https://doi.org/10.1234/x").accessible = true
      ∧ (test_web_accessibility true true netOkSample "https://prajitdas.github.io"
          "https://doi.org/10.1234/x").skipped = true
      ∧ (test_web_accessibility true true netOkSample "https://prajitdas.github.io"
          "https://doi.org/10.1234/x").requests = 0)
      ∧ 1 ≤ (test_web_accessibility false true netOkSample "https://prajitdas.github.io"
          "https://doi.org/10.1234/x").requests) :=
  ⟨⟨by decide, by decide⟩,
   C5_skip_domain_ci true netOkSample "https://prajitdas.github.io"
     "https://doi.org/10.1234/x" (by decide) (by decide)⟩

/-- C10: in CI, skip-list matching is by substring of the lowered
hostname, not exact equality: any absolute URL whose host merely
contains a skip-listed domain is treated as accessible and skipped
with zero HTTP requests issued. -/
theorem C10_substring_skip (importOk : Bool) (net : Net) (base_url url d : String)
    (habs : isHttpUrl url = true)
    (hd : d ∈ SKIP_DOMAINS)
    (hsub : containsStr d (domainOf url) = true) :
    (test_web_accessibility true importOk net base_url url).accessible = true
    ∧ (test_web_accessibility true importOk net base_url url).skipped = true
    ∧ (test_web_accessibility true importOk net base_url url).requests = 0 := by
  have hguard : (true && SKIP_DOMAINS.any
      (fun e => containsStr e (domainOf (buildTestUrl base_url url)))) = true := by
    rw [buildTestUrl_abs base_url url habs, Bool.true_and]
    exact List.any_eq_true.mpr ⟨d, hd, hsub⟩
  rw [probe_skip_eq true importOk net base_url url hguard]
  exact ⟨rfl, rfl, rfl⟩

/-- C10 witness: a host that merely contains acm.org inside a longer,
unrelated domain name is skipped in CI. -/
theorem C10_substring_skip_witness :
    (isHttpUrl "https://www.notacm.org.example/p" = true
      ∧ "acm.org" ∈ SKIP_DOMAINS
      ∧ containsStr "acm.org" (domainOf "https://www.notacm.org.example/p") = true)
    ∧ ((test_web_accessibility true true netOkSample "https://prajitdas.github.io"
          "https://www.notacm.org.example/p").accessible = true
      ∧ (test_web_accessibility true true netOkSample "https://prajitdas.github.io"
          "https://www.notacm.org.example/p").skipped = true
      ∧ (test_web_accessibility true true netOkSample "https://prajitdas.github.io"
          "https://www.notacm.org.example/p").requests = 0) :=
  ⟨⟨by decide, by decide, by decide⟩,
   C10_substring_skip true netOkSample "https://prajitdas.github.io"
     "https://www.notacm.org.example/p" "acm.org" (by decide) (by decide) (by decide)⟩

/-! C6, C7: status acceptance and exception policy. -/

/-- A network on which every request yields HTTP status 418. -/
def net418Sample : Net := { head := fun _ => Except.ok 418, get := fun _ => Except.ok 418 }

/-- A network on which every request yields HTTP status 404. -/
def net404Sample : Net := { head := fun _ => Except.ok 404, get := fun _ => Except.ok 404 }

/-- A network on which every request raises a transport exception. -/
def netErrSample : Net :=
  { head := fun _ => Except.error "timeout", get := fun _ => Except.error "timeout" }

/-- Bool algebra helper for the logging fields. -/
theorem bool_and_resort (x b c : Bool) : (x && (b && c) && b) = (x && b && c) := by
  cases x <;> cases b <;> cases c <;> rfl

/-- C6 counterexample: outside CI, a doi.org URL answered with status
418 is accepted as accessible (and nothing is logged), contradicting
the claim that 403/418/429 are failures outside CI. -/
theorem C6_doi418_counterexample :
    (test_web_accessibility false true net418Sample "https://prajitdas.github.io"
        "https://doi.org/10.999/rsrc").accessible = true
    ∧ (test_web_accessibility false true net418Sample "https://prajitdas.github.io"
        "https://doi.org/10.999/rsrc").logged = false := by
  refine ⟨by decide, by decide⟩

/-- C6 (amended): for a probed URL that receives a response, statuses
200/301/302/303/307/308 are accepted in every environment and
403/418/429 are additionally accepted in CI — except that 418 is also
accepted outside CI whenever the URL's host contains doi.org; an
unaccepted status is logged exactly in non-CI runs with the local
logger available. -/
theorem C6_status_acceptance (isCI importOk : Bool) (net : Net) (base_url url : String)
    (status : Nat)
    (hskip : (isCI && SKIP_DOMAINS.any
        (fun d => containsStr d (domainOf (buildTestUrl base_url url)))) = false)
    (hhead : net.head (buildTestUrl base_url url) = Except.ok status) :
    ((test_web_accessibility isCI importOk net base_url url).accessible =
      (statusIn status BASE_ACCEPTABLE
        || isCI && statusIn status CI_EXTRA
        || (containsStr "doi.org" (domainOf (buildTestUrl base_url url))
            || containsStr "dx.doi.org" (domainOf (buildTestUrl base_url url)))
           && status == 418))
    ∧ ((test_web_accessibility isCI importOk net base_url url).logged =
        (!(test_web_accessibility isCI importOk net base_url url).accessible
          && !isCI && importOk)) := by
  rw [probe_head_eq isCI importOk net base_url url status hskip hhead]
  unfold probeRespond LOCAL_LOGGING_ENABLED
  constructor
  · cases isCI
    · simp [acceptableStatuses]
    · simp only [acceptableStatuses, if_true, statusIn, List.any_append, Bool.true_and,
        Bool.or_assoc]
  · exact bool_and_resort _ _ _

/-- C6 witness: outside CI with the logger available, a 404 on a
non-doi host is not accessible and is logged. -/
theorem C6_status_acceptance_witness :
    ((false && SKIP_DOMAINS.any
        (fun d => containsStr d (domainOf (buildTestUrl "https://prajitdas.github.io"
          "https://example.com/a.pdf")))) = false
      ∧ net404Sample.head (buildTestUrl "https://prajitdas.github.io"
          "https://example.com/a.pdf") = Except.ok 404)
    ∧ (((test_web_accessibility false true net404Sample "https://prajitdas.github.io"
          "https://example.com/a.pdf").accessible =
        (statusIn 404 BASE_ACCEPTABLE
          || false && statusIn 404 CI_EXTRA
          || (containsStr "doi.org" (domainOf (buildTestUrl "https://prajitdas.github.io"
                "https://example.com/a.pdf"))
              || containsStr "dx.doi.org" (domainOf (buildTestUrl "https://prajitdas.github.io"
                "https://example.com/a.pdf")))
             && 404 == 418))
      ∧ ((test_web_accessibility false true net404Sample "https://prajitdas.github.io"
            "https://example.com/a.pdf").logged =
          (!(test_web_accessibility false true net404Sample "https://prajitdas.github.io"
              "https://example.com/a.pdf").accessible
            && !false && true))) :=
  ⟨⟨by decide, rfl⟩,
   C6_status_acceptance false true net404Sample "https://prajitdas.github.io"
     "https://example.com/a.pdf" 404 (by decide) rfl⟩

/-- C7: when both the HEAD request and the GET retry raise transport
exceptions, the probe reports accessible = IS_CI (pass in CI, failure
outside CI), carries no status code, and records the failure to the
local failure log exactly in non-CI runs with the logger available. -/
theorem C7_exception_policy (isCI importOk : Bool) (net : Net) (base_url url : String)
    (e1 e2 : String)
    (hskip : (isCI && SKIP_DOMAINS.any
        (fun d => containsStr d (domainOf (buildTestUrl base_url url)))) = false)
    (hhead : net.head (buildTestUrl base_url url) = Except.error e1)
    (hget : net.get (buildTestUrl base_url url) = Except.error e2) :
    (test_web_accessibility isCI importOk net base_url url).accessible = isCI
    ∧ (test_web_accessibility isCI importOk net base_url url).status_code = none
    ∧ (test_web_accessibility isCI importOk net base_url url).logged = (!isCI && importOk) := by
  rw [probe_exn_eq isCI importOk net base_url url e1 e2 hskip hhead hget]
  refine ⟨rfl, rfl, ?_⟩
  unfold LOCAL_LOGGING_ENABLED
  cases isCI <;> cases importOk <;> rfl

/-- C7 witness: a transport failure outside CI with the logger
available is a logged failure. -/
theorem C7_exception_policy_witness :
    ((false && SKIP_DOMAINS.any
        (fun d => containsStr d (domainOf (buildTestUrl "https://prajitdas.github.io"
          "assets/css/style.css")))) = false
      ∧ netErrSample.head (buildTestUrl "https://prajitdas.github.io"
          "assets/css/style.css") = Except.error "timeout"
      ∧ netErrSample.get (buildTestUrl "https://prajitdas.github.io"
          "assets/css/style.css") = Except.error "timeout")
    ∧ ((test_web_accessibility false true netErrSample "https://prajitdas.github.io"
          "assets/css/style.css").accessible = false
      ∧ (test_web_accessibility false true netErrSample "https://prajitdas.github.io"
          "assets/css/style.css").status_code = none
      ∧ (test_web_accessibility false true netErrSample "https://prajitdas.github.io"
          "assets/css/style.css").logged = (!false && true)) :=
  ⟨⟨by decide, rfl, rfl⟩,
   C7_exception_policy false true netErrSample "https://prajitdas.github.io"
     "assets/css/style.css" "timeout" "timeout" (by decide) rfl rfl⟩

/-! C4: the classification contract. -/

/-- Paths ending in .pdf classify as PDF (document). -/
theorem classifyPath_pdf (p : String) (h : endsWithStr ".pdf" p = true) :
    classifyPath p = ResourceType.PDF := by
  unfold classifyPath
  rw [h]
  simp

/-- Paths ending in an image extension classify as IMAGES. -/
theorem classifyPath_images (p : String)
    (h : (endsWithStr ".png" p || endsWithStr ".jpg" p || endsWithStr ".jpeg" p
      || endsWithStr ".gif" p || endsWithStr ".svg" p || endsWithStr ".ico" p) = true) :
    classifyPath p = ResourceType.IMAGES := by
  have hpdf : endsWithStr ".pdf" p = false := by
    simp only [Bool.or_eq_true] at h
    rcases h with ((((h | h) | h) | h) | h) | h
    · exact ne_ends ".png" ".pdf" p h (by decide) (by decide)
    · exact ne_ends ".jpg" ".pdf" p h (by decide) (by decide)
    · exact ne_ends ".jpeg" ".pdf" p h (by decide) (by decide)
    · exact ne_ends ".gif" ".pdf" p h (by decide) (by decide)
    · exact ne_ends ".svg" ".pdf" p h (by decide) (by decide)
    · exact ne_ends ".ico" ".pdf" p h (by decide) (by decide)
  unfold classifyPath
  rw [hpdf, h]
  simp

/-- Paths ending in .css classify as CSS (stylesheet). -/
theorem classifyPath_css (p : String) (h : endsWithStr ".css" p = true) :
    classifyPath p = ResourceType.CSS := by
  have e1 : endsWithStr ".pdf" p = false := ne_ends ".css" ".pdf" p h (by decide) (by decide)
  have e2 : endsWithStr ".png" p = false := ne_ends ".css" ".png" p h (by decide) (by decide)
  have e3 : endsWithStr ".jpg" p = false := ne_ends ".css" ".jpg" p h (by decide) (by decide)
  have e4 : endsWithStr ".jpeg" p = false := ne_ends ".css" ".jpeg" p h (by decide) (by decide)
  have e5 : endsWithStr ".gif" p = false := ne_ends ".css" ".gif" p h (by decide) (by decide)
  have e6 : endsWithStr ".svg" p = false := ne_ends ".css" ".svg" p h (by decide) (by decide)
  have e7 : endsWithStr ".ico" p = false := ne_ends ".css" ".ico" p h (by decide) (by decide)
  unfold classifyPath
  rw [e1, e2, e3, e4, e5, e6, e7, h]
  simp

/-- Paths ending in .js classify as JS (script). -/
theorem classifyPath_js (p : String) (h : endsWithStr ".js" p = true) :
    classifyPath p = ResourceType.JS := by
  have e1 : endsWithStr ".pdf" p = false := ne_ends ".js" ".pdf" p h (by decide) (by decide)
  have e2 : endsWithStr ".png" p = false := ne_ends ".js" ".png" p h (by decide) (by decide)
  have e3 : endsWithStr ".jpg" p = false := ne_ends ".js" ".jpg" p h (by decide) (by decide)
  have e4 : endsWithStr ".jpeg" p = false := ne_ends ".js" ".jpeg" p h (by decide) (by decide)
  have e5 : endsWithStr ".gif" p = false := ne_ends ".js" ".gif" p h (by decide) (by decide)
  have e6 : endsWithStr ".svg" p = false := ne_ends ".js" ".svg" p h (by decide) (by decide)
  have e7 : endsWithStr ".ico" p = false := ne_ends ".js" ".ico" p h (by decide) (by decide)
  have e8 : endsWithStr ".css" p = false := ne_ends ".js" ".css" p h (by decide) (by decide)
  unfold classifyPath
  rw [e1, e2, e3, e4, e5, e6, e7, e8, h]
  simp

/-- Paths ending in .html or .htm classify as HTML (markup). -/
theorem classifyPath_html (p : String)
    (h : (endsWithStr ".html" p || endsWithStr ".htm" p) = true) :
    classifyPath p = ResourceType.HTML := by
  simp only [Bool.or_eq_true] at h
  rcases h with h | h
  · have e1 : endsWithStr ".pdf" p = false := ne_ends ".html" ".pdf" p h (by decide) (by decide)
    have e2 : endsWithStr ".png" p = false := ne_ends ".html" ".png" p h (by decide) (by decide)
    have e3 : endsWithStr ".jpg" p = false := ne_ends ".html" ".jpg" p h (by decide) (by decide)
    have e4 : endsWithStr ".jpeg" p = false := ne_ends ".html" ".jpeg" p h (by decide) (by decide)
    have e5 : endsWithStr ".gif" p = false := ne_ends ".html" ".gif" p h (by decide) (by decide)
    have e6 : endsWithStr ".svg" p = false := ne_ends ".html" ".svg" p h (by decide) (by decide)
    have e7 : endsWithStr ".ico" p = false := ne_ends ".html" ".ico" p h (by decide) (by decide)
    have e8 : endsWithStr ".css" p = false := ne_ends ".html" ".css" p h (by decide) (by decide)
    have e9 : endsWithStr ".js" p = false := ne_ends ".html" ".js" p h (by decide) (by decide)
    unfold classifyPath
    rw [e1, e2, e3, e4, e5, e6, e7, e8, e9, h]
    simp
  · have e1 : endsWithStr ".pdf" p = false := ne_ends ".htm" ".pdf" p h (by decide) (by decide)
    have e2 : endsWithStr ".png" p = false := ne_ends ".htm" ".png" p h (by decide) (by decide)
    have e3 : endsWithStr ".jpg" p = false := ne_ends ".htm" ".jpg" p h (by decide) (by decide)
    have e4 : endsWithStr ".jpeg" p = false := ne_ends ".htm" ".jpeg" p h (by decide) (by decide)
    have e5 : endsWithStr ".gif" p = false := ne_ends ".htm" ".gif" p h (by decide) (by decide)
    have e6 : endsWithStr ".svg" p = false := ne_ends ".htm" ".svg" p h (by decide) (by decide)
    have e7 : endsWithStr ".ico" p = false := ne_ends ".htm" ".ico" p h (by decide) (by decide)
    have e8 : endsWithStr ".css" p = false := ne_ends ".htm" ".css" p h (by decide) (by decide)
    have e9 : endsWithStr ".js" p = false := ne_ends ".htm" ".js" p h (by decide) (by decide)
    unfold classifyPath
    rw [e1, e2, e3, e4, e5, e6, e7, e8, e9, h]
    simp

/-- Paths ending in .txt, .xml or .json classify as TEXT. -/
theorem classifyPath_text (p : String)
    (h : (endsWithStr ".txt" p || endsWithStr ".xml" p || endsWithStr ".json" p) = true) :
    classifyPath p = ResourceType.TEXT := by
  simp only [Bool.or_eq_true] at h
  rcases h with (h | h) | h
  · have e1 : endsWithStr ".pdf" p = false := ne_ends ".txt" ".pdf" p h (by decide) (by decide)
    have e2 : endsWithStr ".png" p = false := ne_ends ".txt" ".png" p h (by decide) (by decide)
    have e3 : endsWithStr ".jpg" p = false := ne_ends ".txt" ".jpg" p h (by decide) (by decide)
    have e4 : endsWithStr ".jpeg" p = false := ne_ends ".txt" ".jpeg" p h (by decide) (by decide)
    have e5 : endsWithStr ".gif" p = false := ne_ends ".txt" ".gif" p h (by decide) (by decide)
    have e6 : endsWithStr ".svg" p = false := ne_ends ".txt" ".svg" p h (by decide) (by decide)
    have e7 : endsWithStr ".ico" p = false := ne_ends ".txt" ".ico" p h (by decide) (by decide)
    have e8 : endsWithStr ".css" p = false := ne_ends ".txt" ".css" p h (by decide) (by decide)
    have e9 : endsWithStr ".js" p = false := ne_ends ".txt" ".js" p h (by decide) (by decide)
    have e10 : endsWithStr ".html" p = false := ne_ends ".txt" ".html" p h (by decide) (by decide)
    have e11 : endsWithStr ".htm" p = false := ne_ends ".txt" ".htm" p h (by decide) (by decide)
    unfold classifyPath
    rw [e1, e2, e3, e4, e5, e6, e7, e8, e9, e10, e11, h]
    simp
  · have e1 : endsWithStr ".pdf" p = false := ne_ends ".xml" ".pdf" p h (by decide) (by decide)
    have e2 : endsWithStr ".png" p = false := ne_ends ".xml" ".png" p h (by decide) (by decide)
    have e3 : endsWithStr ".jpg" p = false := ne_ends ".xml" ".jpg" p h (by decide) (by decide)
    have e4 : endsWithStr ".jpeg" p = false := ne_ends ".xml" ".jpeg" p h (by decide) (by decide)
    have e5 : endsWithStr ".gif" p = false := ne_ends ".xml" ".gif" p h (by decide) (by decide)
    have e6 : endsWithStr ".svg" p = false := ne_ends ".xml" ".svg" p h (by decide) (by decide)
    have e7 : endsWithStr ".ico" p = false := ne_ends ".xml" ".ico" p h (by decide) (by decide)
    have e8 : endsWithStr ".css" p = false := ne_ends ".xml" ".css" p h (by decide) (by decide)
    have e9 : endsWithStr ".js" p = false := ne_ends ".xml" ".js" p h (by decide) (by decide)
    have e10 : endsWithStr ".html" p = false := ne_ends ".xml" ".html" p h (by decide) (by decide)
    have e11 : endsWithStr ".htm" p = false := ne_ends ".xml" ".htm" p h (by decide) (by decide)
    unfold classifyPath
    rw [e1, e2, e3, e4, e5, e6, e7, e8, e9, e10, e11, h]
    simp
  · have e1 : endsWithStr ".pdf" p = false := ne_ends ".json" ".pdf" p h (by decide) (by decide)
    have e2 : endsWithStr ".png" p = false := ne_ends ".json" ".png" p h (by decide) (by decide)
    have e3 : endsWithStr ".jpg" p = false := ne_ends ".json" ".jpg" p h (by decide) (by decide)
    have e4 : endsWithStr ".jpeg" p = false := ne_ends ".json" ".jpeg" p h (by decide) (by decide)
    have e5 : endsWithStr ".gif" p = false := ne_ends ".json" ".gif" p h (by decide) (by decide)
    have e6 : endsWithStr ".svg" p = false := ne_ends ".json" ".svg" p h (by decide) (by decide)
    have e7 : endsWithStr ".ico" p = false := ne_ends ".json" ".ico" p h (by decide) (by decide)
    have e8 : endsWithStr ".css" p = false := ne_ends ".json" ".css" p h (by decide) (by decide)
    have e9 : endsWithStr ".js" p = false := ne_ends ".json" ".js" p h (by decide) (by decide)
    have e10 : endsWithStr ".html" p = false := ne_ends ".json" ".html" p h (by decide) (by decide)
    have e11 : endsWithStr ".htm" p = false := ne_ends ".json" ".htm" p h (by decide) (by decide)
    unfold classifyPath
    rw [e1, e2, e3, e4, e5, e6, e7, e8, e9, e10, e11, h]
    simp

/-- Paths with none of the recognised extensions classify as OTHER. -/
theorem classifyPath_other (p : String)
    (h1 : endsWithStr ".pdf" p = false)
    (h2 : (endsWithStr ".png" p || endsWithStr ".jpg" p || endsWithStr ".jpeg" p
      || endsWithStr ".gif" p || endsWithStr ".svg" p || endsWithStr ".ico" p) = false)
    (h3 : endsWithStr ".css" p = false)
    (h4 : endsWithStr ".js" p = false)
    (h5 : (endsWithStr ".html" p || endsWithStr ".htm" p) = false)
    (h6 : (endsWithStr ".txt" p || endsWithStr ".xml" p || endsWithStr ".json" p) = false) :
    classifyPath p = ResourceType.OTHER := by
  unfold classifyPath
  rw [h1, h2, h3, h4, h5, h6]
  simp

/-- Stripping query and fragment from p?q#f recovers p, when p is free
of both separators and q is free of '#'. -/
theorem cleanPathOf_append_qf (p q f : String) (hp1 : hasChar '#' p = false)
    (hp2 : hasChar '?' p = false) (hq : hasChar '#' q = false) :
    cleanPathOf (p ++ "?" ++ q ++ "#" ++ f) = p := by
  have hq1 : ("?" : String).data = ['?'] := rfl
  have hh1 : ("#" : String).data = ['#'] := rfl
  have hall : ∀ a ∈ p.data ++ '?' :: q.data, (a == '#') = false := by
    intro a ha
    rcases List.mem_append.mp ha with h | h
    · exact all_beq_false_of_any_false '#' p.data hp1 a h
    · rcases List.mem_cons.mp h with rfl | h'
      · decide
      · exact all_beq_false_of_any_false '#' q.data hq a h'
  have hd : (p ++ "?" ++ q ++ "#" ++ f).data = (p.data ++ '?' :: q.data) ++ '#' :: f.data := by
    rw [String.data_append, String.data_append, String.data_append, String.data_append, hq1, hh1]
    simp
  have hstep1 : beforeChar '#' (p ++ "?" ++ q ++ "#" ++ f) = ⟨p.data ++ '?' :: q.data⟩ := by
    unfold beforeChar
    rw [hd, takeWhileNe_append_sep '#' (p.data ++ '?' :: q.data) f.data hall]
  unfold cleanPathOf
  rw [hstep1]
  unfold beforeChar
  rw [show (String.mk (p.data ++ '?' :: q.data)).data = p.data ++ '?' :: q.data from rfl,
    takeWhileNe_append_sep '?' p.data q.data (all_beq_false_of_any_false '?' p.data hp2)]

/-- cleanPathOf is the identity on strings free of '#' and '?'. -/
theorem cleanPathOf_eq_self (p : String) (hp1 : hasChar '#' p = false)
    (hp2 : hasChar '?' p = false) : cleanPathOf p = p := by
  unfold cleanPathOf
  rw [beforeChar_eq_self '#' p hp1, beforeChar_eq_self '?' p hp2]

/-- C4: classify_resource is a pure function of the URL's path alone:
appending a query string and fragment never changes the result; the
result is determined by the lower-cased urlparse path; the lower-cased
path's extension drives the mapping .pdf to PDF (document), the image
extensions to IMAGES, .css to CSS (stylesheet), .js to JS (script),
.html/.htm to HTML (markup), .txt/.xml/.json to TEXT, everything else
to OTHER; and classify_resource of a/b.PDF?x=1#y is PDF. -/
theorem C4_classify_contract :
    (∀ p q f : String, hasChar '#' p = false → hasChar '?' p = false →
      hasChar '#' q = false →
      classify_resource (p ++ "?" ++ q ++ "#" ++ f) = classify_resource p)
    ∧ (∀ u v : String, lowerStr (urlPath u) = lowerStr (urlPath v) →
      classify_resource u = classify_resource v)
    ∧ (∀ url : String, endsWithStr ".pdf" (lowerStr (urlPath url)) = true →
      classify_resource url = ResourceType.PDF)
    ∧ (∀ url : String, (endsWithStr ".png" (lowerStr (urlPath url))
        || endsWithStr ".jpg" (lowerStr (urlPath url))
        || endsWithStr ".jpeg" (lowerStr (urlPath url))
        || endsWithStr ".gif" (lowerStr (urlPath url))
        || endsWithStr ".svg" (lowerStr (urlPath url))
        || endsWithStr ".ico" (lowerStr (urlPath url))) = true →
      classify_resource url = ResourceType.IMAGES)
    ∧ (∀ url : String, endsWithStr ".css" (lowerStr (urlPath url)) = true →
      classify_resource url = ResourceType.CSS)
    ∧ (∀ url : String, endsWithStr ".js" (lowerStr (urlPath url)) = true →
      classify_resource url = ResourceType.JS)
    ∧ (∀ url : String, (endsWithStr ".html" (lowerStr (urlPath url))
        || endsWithStr ".htm" (lowerStr (urlPath url))) = true →
      classify_resource url = ResourceType.HTML)
    ∧ (∀ url : String, (endsWithStr ".txt" (lowerStr (urlPath url))
        || endsWithStr ".xml" (lowerStr (urlPath url))
        || endsWithStr ".json" (lowerStr (urlPath url))) = true →
      classify_resource url = ResourceType.TEXT)
    ∧ (∀ url : String, endsWithStr ".pdf" (lowerStr (urlPath url)) = false →
        (endsWithStr ".png" (lowerStr (urlPath url))
          || endsWithStr ".jpg" (lowerStr (urlPath url))
          || endsWithStr ".jpeg" (lowerStr (urlPath url))
          || endsWithStr ".gif" (lowerStr (urlPath url))
          || endsWithStr ".svg" (lowerStr (urlPath url))
          || endsWithStr ".ico" (lowerStr (urlPath url))) = false →
        endsWithStr ".css" (lowerStr (urlPath url)) = false →
        endsWithStr ".js" (lowerStr (urlPath url)) = false →
        (endsWithStr ".html" (lowerStr (urlPath url))
          || endsWithStr ".htm" (lowerStr (urlPath url))) = false →
        (endsWithStr ".txt" (lowerStr (urlPath url))
          || endsWithStr ".xml" (lowerStr (urlPath url))
          || endsWithStr ".json" (lowerStr (urlPath url))) = false →
      classify_resource url = ResourceType.OTHER)
    ∧ classify_resource "a/b.PDF?x=1#y" = ResourceType.PDF := by
  refine ⟨?_, ?_, ?_, ?_, ?_, ?_, ?_, ?_, ?_, by decide⟩
  · intro p q f hp1 hp2 hq
    unfold classify_resource urlPath
    rw [cleanPathOf_append_qf p q f hp1 hp2 hq, cleanPathOf_eq_self p hp1 hp2]
  · intro u v h
    unfold classify_resource
    rw [h]
  · intro url h
    exact classifyPath_pdf _ h
  · intro url h
    exact classifyPath_images _ h
  · intro url h
    exact classifyPath_css _ h
  · intro url h
    exact classifyPath_js _ h
  · intro url h
    exact classifyPath_html _ h
  · intro url h
    exact classifyPath_text _ h
  · intro url h1 h2 h3 h4 h5 h6
    exact classifyPath_other _ h1 h2 h3 h4 h5 h6

/-- C4 witness: the contract instantiated on concrete references: the
query/fragment invariance and the PDF rule at a/b.PDF, the stylesheet
rule at assets/CSS/main.CSS, and the OTHER rule at an extensionless
path. -/
theorem C4_classify_contract_witness :
    (hasChar '#' "a/b.PDF" = false ∧ hasChar '?' "a/b.PDF" = false
      ∧ hasChar '#' "x=1" = false
      ∧ endsWithStr ".pdf" (lowerStr (urlPath "a/b.PDF")) = true
      ∧ endsWithStr ".css" (lowerStr (urlPath "assets/CSS/main.CSS")) = true)
    ∧ classify_resource ("a/b.PDF" ++ "?" ++ "x=1" ++ "#" ++ "y") = classify_resource "a/b.PDF"
    ∧ classify_resource "a/b.PDF" = ResourceType.PDF
    ∧ classify_resource "assets/CSS/main.CSS" = ResourceType.CSS
    ∧ classify_resource "https://example.com/download/file-v2" = ResourceType.OTHER :=
  ⟨⟨by decide, by decide, by decide, by decide, by decide⟩,
   C4_classify_contract.1 "a/b.PDF" "x=1" "y" (by decide) (by decide) (by decide),
   C4_classify_contract.2.2.1 "a/b.PDF" (by decide),
   C4_classify_contract.2.2.2.2.1 "assets/CSS/main.CSS" (by decide),
   C4_classify_contract.2.2.2.2.2.2.2.2.1 "https://example.com/download/file-v2"
     (by decide) (by decide) (by decide) (by decide) (by decide) (by decide)⟩
